import Mathlib

/-!
Shallow embedding of the expanse-expenses-bot expense-tracking services.

Python `Decimal` values are modelled as exact rationals (`ℚ`); all the
arithmetic performed by the embedded code paths (multiplication, division,
comparison) is exact on `Decimal` at the magnitudes involved, so `ℚ` is a
faithful model.  Timestamps are modelled as integer seconds, calendar dates
as explicit year/month/day records.  Database tables are modelled as lists
of row structures; SQLAlchemy queries become list filters, `ORDER BY
... DESC LIMIT 1` becomes a newest-row selection, and `scalar_one_or_none`
becomes `List.find?`.  Fallible code returns `Except`/`Option`.
-/

namespace ExpanseBot

/-- Python `Decimal`, modelled exactly. -/
abbrev Money := ℚ

/-! ## Transactions (`src/database/models.py`, `src/services/transaction.py`) -/

/-- Row of the `transactions` table (the fields the verified code paths
touch). -/
structure Transaction where
  user_id : Nat
  amount : Money
  currency : String
  amount_primary : Money
  exchange_rate : Money
  merchant : Option String
  transaction_date : Int
  is_deleted : Bool
deriving DecidableEq, Repr

/-- `TransactionService.create_transaction`: applies the documented defaults
(`amount_primary := amount`, `exchange_rate := Decimal('1.0000')` when the
caller passes `None`) and stores the new row with `is_deleted = False`. -/
def create_transaction (user_id : Nat) (amount : Money) (currency : String)
    (transaction_date : Int) (amount_primary : Option Money)
    (exchange_rate : Option Money) (merchant : Option String) : Transaction :=
  { user_id := user_id
    amount := amount
    currency := currency
    amount_primary := amount_primary.getD amount
    exchange_rate := exchange_rate.getD 1
    merchant := merchant
    transaction_date := transaction_date
    is_deleted := false }

/-- `CurrencyService.convert_amount`: identical currencies convert with rate
`1.0000`; otherwise the rate comes from `get_exchange_rate` (here an oracle
argument, resolved in full by `get_exchange_rate` below) and the converted
amount is `amount * rate`; a missing or zero (falsy) rate yields
`(None, None)`. -/
def convert_amount (amount : Money) (from_currency to_currency : String)
    (rate : Option Money) : Option Money × Option Money :=
  if from_currency = to_currency then (some amount, some 1)
  else
    match rate with
    | some r => if r = 0 then (none, none) else (some (amount * r), some r)
    | none => (none, none)

/-- The manual-expense creation flow of `bot/handlers/expense.py`: when the
entered currency differs from the user's primary currency and conversion is
enabled, a successful conversion with a truthy (non-zero) converted amount
stores `amount_primary`/`exchange_rate` in the FSM state; in every other
case the state carries no values and `create_transaction`'s defaults
apply. -/
def process_expense_flow (user_id : Nat) (amount : Money)
    (currency primary_currency : String) (conversion_enabled : Bool)
    (live_rate : Option Money) (transaction_date : Int) : Transaction :=
  let st :=
    if currency ≠ primary_currency ∧ conversion_enabled then
      match convert_amount amount currency primary_currency live_rate with
      | (some c, r) => if c ≠ 0 then (some c, r) else (none, none)
      | (none, _) => (none, none)
    else (none, none)
  create_transaction user_id amount currency transaction_date st.1 st.2 none

/-- The automatic text-expense flow of `bot/handlers/text_expense.py`:
`amount_primary`/`exchange_rate` start as `(amount, 1.0000)`; when the
detected currency differs from the user's currency they are replaced by
`convert_amount`'s result (possibly `(None, None)`, in which case
`create_transaction`'s defaults apply). -/
def process_text_expense_flow (user_id : Nat) (amount : Money)
    (detected_currency user_currency : String) (live_rate : Option Money)
    (transaction_date : Int) : Transaction :=
  let st :=
    if detected_currency ≠ user_currency then
      convert_amount amount detected_currency user_currency live_rate
    else (some amount, some (1 : Money))
  create_transaction user_id amount detected_currency transaction_date
    st.1 st.2 none

/-- Every remaining creation site (`photo.py` 512/674/732/1050,
`document.py` 394/464) reads the FSM state with
`data.get('amount_primary', data['amount'])` and
`data.get('exchange_rate', '1.0000')` and passes both values on; `st` is
the optional pair the preceding preparation step stored (the state is
cleared between receipts, and the flows that re-enter the amount —
clarification and OCR-disabled input — run before any pair is stored, so
`st = (none, none)` there). -/
def create_from_state (user_id : Nat) (amount : Money) (currency : String)
    (transaction_date : Int) (st : Option Money × Option Money) :
    Transaction :=
  create_transaction user_id amount currency transaction_date
    (some (st.1.getD amount)) (some (st.2.getD 1)) none

/-- The conversion-with-fallback block shared by `photo.py` and
`document.py`: a truthy converted amount stores `(converted, rate)`; a
failed or falsy conversion stores `(amount, '1.0000')`. -/
def convert_or_original (amount : Money)
    (from_currency to_currency : String) (live_rate : Option Money) :
    Option Money × Option Money :=
  match convert_amount amount from_currency to_currency live_rate with
  | (some c, r) => if c ≠ 0 then (some c, r) else (some amount, some 1)
  | (none, _) => (some amount, some 1)

/-- The OCR currency block of `photo.py` (lines 320–362): same currency
stores `(amount, '1.0000')`; a foreign currency converts with fallback
when conversion is enabled, and otherwise stores nothing (`none`) and
routes to the currency-selection step. -/
def prepare_photo_ocr (amount : Money) (currency primary_currency : String)
    (conversion_enabled : Bool) (live_rate : Option Money) :
    Option (Option Money × Option Money) :=
  if currency ≠ primary_currency then
    if conversion_enabled then
      some (convert_or_original amount currency primary_currency live_rate)
    else none
  else some (some amount, some 1)

/-- The OCR currency block of `document.py` (lines 240–285): like
`photo.py`'s, but a disabled conversion stores the original amount with
rate `1.0000` directly. -/
def prepare_document_ocr (amount : Money)
    (currency primary_currency : String) (conversion_enabled : Bool)
    (live_rate : Option Money) : Option Money × Option Money :=
  if currency ≠ primary_currency then
    if conversion_enabled then
      convert_or_original amount currency primary_currency live_rate
    else (some amount, some 1)
  else (some amount, some 1)

/-- The three options of `photo.py`'s currency-selection handler. -/
inductive CurrencyChoice where
  | tenge
  | original
  | both
deriving DecidableEq, Repr

/-- The currency-selection handler of `photo.py` (lines 560–630), reached
only for a foreign-currency receipt with conversion disabled: `tenge`
converts to KZT with fallback, `original` keeps the amount at rate
`1.0000`, `both` converts to the user's primary currency with fallback. -/
def prepare_currency_choice (choice : CurrencyChoice) (amount : Money)
    (currency primary_currency : String)
    (rate_to_kzt live_rate : Option Money) : Option Money × Option Money :=
  match choice with
  | .tenge =>
    if currency ≠ "KZT" then
      convert_or_original amount currency "KZT" rate_to_kzt
    else (some amount, some 1)
  | .original => (some amount, some 1)
  | .both =>
    if currency ≠ primary_currency then
      convert_or_original amount currency primary_currency live_rate
    else (some amount, some 1)

/-- The full photo-receipt pipeline: the OCR block prepares the state, the
currency-selection step runs when the OCR block stored nothing, and the
category handler creates the transaction from the state. -/
def process_photo_receipt_flow (user_id : Nat) (amount : Money)
    (currency primary_currency : String) (conversion_enabled : Bool)
    (live_rate rate_to_kzt : Option Money) (choice : CurrencyChoice)
    (transaction_date : Int) : Transaction :=
  match prepare_photo_ocr amount currency primary_currency
      conversion_enabled live_rate with
  | some st => create_from_state user_id amount currency transaction_date st
  | none =>
    create_from_state user_id amount currency transaction_date
      (prepare_currency_choice choice amount currency primary_currency
        rate_to_kzt live_rate)

/-- The document-receipt pipeline of `document.py`. -/
def process_document_flow (user_id : Nat) (amount : Money)
    (currency primary_currency : String) (conversion_enabled : Bool)
    (live_rate : Option Money) (transaction_date : Int) : Transaction :=
  create_from_state user_id amount currency transaction_date
    (prepare_document_ocr amount currency primary_currency
      conversion_enabled live_rate)

/-- The manual-amount creation site of `photo.py` (line 899) and the
maintenance scripts (`add_test_transaction.py`, `fix_stats.py`): the
transaction is created with `amount_primary := amount` and
`exchange_rate := Decimal('1.0000')` explicitly. -/
def process_photo_manual_flow (user_id : Nat) (amount : Money)
    (currency : String) (transaction_date : Int) : Transaction :=
  create_transaction user_id amount currency transaction_date
    (some amount) (some 1) none

/-- The two stored-field invariants claimed of every created transaction:
`amount_primary = amount × exchange_rate`, and rate exactly `1.0000` when
the entered currency is the user's primary currency. -/
def primary_amount_consistent (primary_currency : String)
    (t : Transaction) : Prop :=
  t.amount_primary = t.amount * t.exchange_rate
    ∧ (t.currency = primary_currency → t.exchange_rate = 1)

/-! ## Exchange-rate resolution (`src/services/currency.py`) -/

/-- Unhandled Python exceptions: `NameError` (the argument names the
unresolved identifier) and `decimal.DivisionByZero`.  Neither
`CurrencyService.get_exchange_rate` nor `ExpenseParser.parse_expense`
catches these, so they propagate to the caller. -/
inductive PyError where
  | nameError : String → PyError
  | divisionByZero : PyError
deriving DecidableEq, Repr

/-- Association-list lookup (Python `dict.get` / Redis `get`). -/
def dictGet (d : List (String × Money)) (k : String) : Option Money :=
  (d.find? (fun p => p.1 = k)).map (·.2)

/-- Association-list update (Redis `set`). -/
def dictSet (d : List (String × Money)) (k : String) (v : Money) :
    List (String × Money) :=
  (k, v) :: d.filter (fun p => p.1 ≠ k)

/-- `dictSet` stores the value under the key it was given. -/
theorem dictGet_dictSet (d : List (String × Money)) (k : String) (v : Money) :
    dictGet (dictSet d k v) k = some v := by
  simp [dictGet, dictSet]

/-- Row of the `companies` table; `settings` is a JSON dict of which only
`auto_approve_limit` is read (as `Decimal(settings.get('auto_approve_limit',
'0'))`). -/
structure Company where
  id : String
  auto_approve_limit_setting : Option Money
deriving DecidableEq, Repr

/-- `Decimal(company.settings.get('auto_approve_limit', '0'))`. -/
def Company.auto_approve_limit (c : Company) : Money :=
  c.auto_approve_limit_setting.getD 0

/-- Row of the `approval_rules` table. -/
structure ApprovalRule where
  company_id : String
  min_amount : Option Money
  max_amount : Option Money
  category_id : Option String
  is_active : Bool
deriving DecidableEq, Repr

/-- Python truthiness of an optional `Decimal` (`None` and `0` are falsy). -/
def truthyMoney : Option Money → Bool
  | none => false
  | some m => m ≠ 0

/-- Python truthiness of an optional string (`None` and `''` are falsy). -/
def truthyStr : Option String → Bool
  | none => false
  | some s => s ≠ ""

/-- The rule-matching loop body of `check_approval_required`: a rule is
skipped when its (truthy) `min_amount` exceeds the amount, its (truthy)
`max_amount` is below the amount, or its (truthy) `category_id` differs
from the transaction's category; otherwise it matches. -/
def rule_matches (rule : ApprovalRule) (amount : Money)
    (category_id : Option String) : Bool :=
  !(truthyMoney rule.min_amount && decide (amount < rule.min_amount.getD 0))
    && !(truthyMoney rule.max_amount
      && decide (rule.max_amount.getD 0 < amount))
    && !(truthyStr rule.category_id && rule.category_id != category_id)

/-- `CompanyService.check_approval_required`: missing company means no
approval; amounts at or below a positive auto-approve limit skip approval;
otherwise the first matching active rule of the company forces approval;
with no matching rule, approval is required exactly above the limit. -/
def check_approval_required (companies : List Company)
    (rules : List ApprovalRule) (company_id : String) (amount : Money)
    (category_id : Option String) : Bool :=
  match companies.find? (fun c => c.id = company_id) with
  | none => false
  | some company =>
    let limit := company.auto_approve_limit
    if 0 < limit ∧ amount ≤ limit then false
    else
      let active := rules.filter (fun r =>
        r.company_id = company_id ∧ r.is_active = true)
      match active.find? (fun r => rule_matches r amount category_id) with
      | some _ => true
      | none => decide (limit < amount)

/-- Row of the `company_transactions` table. -/
structure CompanyTransaction where
  transaction_id : String
  company_id : String
  status : String
  approved_by : Option Nat
  approved_at : Option Int
  rejection_reason : Option String
deriving DecidableEq, Repr

/-- `CompanyService.create_company_transaction`: the approval envelope is
created `pending` when approval is required and `approved` (with the
auto-approver and timestamp recorded) when it is not. -/
def create_company_transaction (transaction_id company_id : String)
    (requires_approval : Bool) (auto_approved_by : Option Nat)
    (now : Int) : CompanyTransaction :=
  { transaction_id := transaction_id
    company_id := company_id
    status := if requires_approval then "pending" else "approved"
    approved_by := if requires_approval then none else auto_approved_by
    approved_at := if requires_approval then none else some now
    rejection_reason := none }

/-- C3: with a company whose auto-approve threshold is 50,000 and no
matching active approval rule, `check_approval_required` is false at or
below 50,000 and true above it, and `create_company_transaction` creates
the envelope `approved` when approval is not required and `pending` when it
is. -/
theorem c3_auto_approve_threshold (companies : List Company)
    (rules : List ApprovalRule) (company_id : String) (amount : Money)
    (category_id : Option String) (c : Company)
    (hfind : companies.find? (fun c => c.id = company_id) = some c)
    (hlimit : c.auto_approve_limit = 50000)
    (hnorule : ∀ r ∈ rules, r.company_id = company_id → r.is_active = true →
      rule_matches r amount category_id = false) :
    (amount ≤ 50000 →
      check_approval_required companies rules company_id amount category_id
        = false)
    ∧ (50000 < amount →
      check_approval_required companies rules company_id amount category_id
        = true)
    ∧ ∀ tid cid approver now,
        (create_company_transaction tid cid
          (check_approval_required companies rules company_id amount
            category_id) approver now).status
          = if check_approval_required companies rules company_id amount
              category_id then "pending" else "approved" := by
  have hnone : (rules.filter (fun r =>
      r.company_id = company_id ∧ r.is_active = true)).find?
        (fun r => rule_matches r amount category_id) = none := by
    rw [List.find?_eq_none]
    intro r hr
    rw [List.mem_filter] at hr
    have := of_decide_eq_true hr.2
    simp [hnorule r hr.1 this.1 this.2]
  refine ⟨?_, ?_, ?_⟩
  · intro hle
    simp [check_approval_required, hfind, hlimit, hle]
  · intro hgt
    have : ¬ (0 < c.auto_approve_limit ∧ amount ≤ c.auto_approve_limit) := by
      rw [hlimit]
      rintro ⟨-, h⟩
      exact absurd hgt (not_lt.mpr h)
    simp only [check_approval_required, hfind, if_neg this, hnone]
    rw [hlimit]
    simpa using hgt
  · intro tid cid approver now
    by_cases h : check_approval_required companies rules company_id amount
        category_id <;>
      simp [create_company_transaction, h]

/-- Closed instance of `c3_auto_approve_threshold`: one company, threshold
50,000, no rules; 49,999 is auto-approved, 50,001 requires approval. -/
theorem c3_auto_approve_threshold_witness :
    (check_approval_required [⟨"acme", some 50000⟩] [] "acme" 49999 none
      = false)
    ∧ (check_approval_required [⟨"acme", some 50000⟩] [] "acme" 50001 none
      = true)
    ∧ (create_company_transaction "t1" "acme"
        (check_approval_required [⟨"acme", some 50000⟩] [] "acme" 49999 none)
        (some 7) 0).status = "approved"
    ∧ (create_company_transaction "t2" "acme"
        (check_approval_required [⟨"acme", some 50000⟩] [] "acme" 50001 none)
        (some 7) 0).status = "pending" := by
  have h1 := c3_auto_approve_threshold [⟨"acme", some 50000⟩] [] "acme"
    49999 none ⟨"acme", some 50000⟩ rfl (by decide) (by intro r hr; cases hr)
  have h2 := c3_auto_approve_threshold [⟨"acme", some 50000⟩] [] "acme"
    50001 none ⟨"acme", some 50000⟩ rfl (by decide) (by intro r hr; cases hr)
  have e1 := h1.1 (by norm_num)
  have e2 := h2.2.1 (by norm_num)
  refine ⟨e1, e2, ?_, ?_⟩
  · rw [h1.2.2 "t1" "acme" (some 7) 0, e1]
    simp
  · rw [h2.2.2 "t2" "acme" (some 7) 0, e2]
    simp

/-- Replace the first element satisfying `p` (the ORM mutates the single
row returned by `scalar_one_or_none`). -/
def update_first (p : CompanyTransaction → Bool)
    (f : CompanyTransaction → CompanyTransaction) :
    List CompanyTransaction → List CompanyTransaction
  | [] => []
  | c :: rest => if p c then f c :: rest else c :: update_first p f rest

/-- `CompanyService.approve_transaction`: looks the envelope up by
transaction id; returns `False` leaving the table untouched when it is
absent or not `pending`; otherwise marks it `approved` with approver and
timestamp and returns `True`. -/
def approve_transaction (store : List CompanyTransaction)
    (transaction_id : String) (approved_by : Nat) (now : Int) :
    Bool × List CompanyTransaction :=
  match store.find? (fun ct => ct.transaction_id = transaction_id) with
  | none => (false, store)
  | some ct =>
    if ct.status ≠ "pending" then (false, store)
    else
      (true,
       update_first (fun c => c.transaction_id = transaction_id)
         (fun c =>
           { c with
             status := "approved"
             approved_by := some approved_by
             approved_at := some now }) store)

/-- `CompanyService.reject_transaction`: same guard as approval; a pending
envelope becomes `rejected` with the rejecting user stored in
`approved_by`, the timestamp in `approved_at`, and the reason recorded. -/
def reject_transaction (store : List CompanyTransaction)
    (transaction_id : String) (rejected_by : Nat) (reason : String)
    (now : Int) : Bool × List CompanyTransaction :=
  match store.find? (fun ct => ct.transaction_id = transaction_id) with
  | none => (false, store)
  | some ct =>
    if ct.status ≠ "pending" then (false, store)
    else
      (true,
       update_first (fun c => c.transaction_id = transaction_id)
         (fun c =>
           { c with
             status := "rejected"
             approved_by := some rejected_by
             approved_at := some now
             rejection_reason := some reason }) store)

/-- `update_first` rewrites exactly the row `find?` located, provided the
update preserves the predicate. -/
theorem find?_update_first (p : CompanyTransaction → Bool)
    (f : CompanyTransaction → CompanyTransaction)
    (hp : ∀ c, p (f c) = p c) :
    ∀ (store : List CompanyTransaction) (ct : CompanyTransaction),
      store.find? p = some ct →
        (update_first p f store).find? p = some (f ct) := by
  intro store
  induction store with
  | nil => intro ct h; cases h
  | cons c rest ih =>
    intro ct h
    by_cases hc : p c
    · rw [List.find?_cons_of_pos rest hc] at h
      cases h
      rw [update_first, if_pos hc]
      exact List.find?_cons_of_pos _ (by rw [hp]; exact hc)
    · rw [List.find?_cons_of_neg rest hc] at h
      rw [update_first, if_neg hc]
      rw [List.find?_cons_of_neg _ hc]
      exact ih ct h

/-- C4: `approve_transaction` and `reject_transaction` return `False` and
leave the table (hence the record's status, approver, timestamp and
rejection reason) unchanged whenever the envelope is absent or not
`pending`; on a `pending` envelope they return `True` and transition it to
`approved`/`rejected` with the actor and timestamp recorded. -/
theorem c4_approve_reject_pending_guard (store : List CompanyTransaction)
    (transaction_id : String) (actor : Nat) (reason : String) (now : Int) :
    (store.find? (fun ct => ct.transaction_id = transaction_id) = none →
      approve_transaction store transaction_id actor now = (false, store)
      ∧ reject_transaction store transaction_id actor reason now
        = (false, store))
    ∧ (∀ ct, store.find? (fun ct => ct.transaction_id = transaction_id)
          = some ct →
        ct.status ≠ "pending" →
        approve_transaction store transaction_id actor now = (false, store)
        ∧ reject_transaction store transaction_id actor reason now
          = (false, store))
    ∧ (∀ ct, store.find? (fun ct => ct.transaction_id = transaction_id)
          = some ct →
        ct.status = "pending" →
        (approve_transaction store transaction_id actor now).1 = true
        ∧ (approve_transaction store transaction_id actor now).2.find?
            (fun c => c.transaction_id = transaction_id)
          = some { ct with
                   status := "approved"
                   approved_by := some actor
                   approved_at := some now }
        ∧ (reject_transaction store transaction_id actor reason now).1 = true
        ∧ (reject_transaction store transaction_id actor reason now).2.find?
            (fun c => c.transaction_id = transaction_id)
          = some { ct with
                   status := "rejected"
                   approved_by := some actor
                   approved_at := some now
                   rejection_reason := some reason }) := by
  refine ⟨?_, ?_, ?_⟩
  · intro h
    constructor <;> simp [approve_transaction, reject_transaction, h]
  · intro ct hfind hst
    constructor <;>
      simp [approve_transaction, reject_transaction, hfind, hst]
  · intro ct hfind hst
    have hst' : ¬ ct.status ≠ "pending" := by simp [hst]
    refine ⟨?_, ?_, ?_, ?_⟩
    · simp [approve_transaction, hfind, hst']
    · have := find?_update_first
        (fun c => c.transaction_id = transaction_id)
        (fun c =>
          { c with
            status := "approved"
            approved_by := some actor
            approved_at := some now })
        (fun c => rfl) store ct hfind
      simpa [approve_transaction, hfind, hst'] using this
    · simp [reject_transaction, hfind, hst']
    · have := find?_update_first
        (fun c => c.transaction_id = transaction_id)
        (fun c =>
          { c with
            status := "rejected"
            approved_by := some actor
            approved_at := some now
            rejection_reason := some reason })
        (fun c => rfl) store ct hfind
      simpa [reject_transaction, hfind, hst'] using this

/-- Closed instance of `c4_approve_reject_pending_guard`: a second approval
attempt on an already-approved envelope is a no-op, and a pending envelope
is approved. -/
theorem c4_approve_reject_pending_guard_witness :
    (approve_transaction
        [⟨"t1", "acme", "approved", some 7, some 5, none⟩] "t1" 9 10
      = (false, [⟨"t1", "acme", "approved", some 7, some 5, none⟩]))
    ∧ (approve_transaction
        [⟨"t2", "acme", "pending", none, none, none⟩] "t2" 9 10).1 = true := by
  constructor
  · exact ((c4_approve_reject_pending_guard
      [⟨"t1", "acme", "approved", some 7, some 5, none⟩] "t1" 9 "r" 10).2.1
      ⟨"t1", "acme", "approved", some 7, some 5, none⟩ (by decide)
      (by decide)).1
  · exact ((c4_approve_reject_pending_guard
      [⟨"t2", "acme", "pending", none, none, none⟩] "t2" 9 "r" 10).2.2
      ⟨"t2", "acme", "pending", none, none, none⟩ (by decide) rfl).1

/-! ## Duplicate detection (`src/services/duplicate_detector.py`) -/

/-- Python `str.lower` / SQL `LOWER`, restricted to the ASCII and Cyrillic
alphabets the bot's inputs use (`А..Я` is `U+0410..U+042F`, lowercase is 32
codepoints higher; `Ё` is `U+0401`, lowercase `U+0451`). -/
def charLower (c : Char) : Char :=
  if 'A' ≤ c ∧ c ≤ 'Z' then Char.ofNat (c.toNat + 32)
  else if 0x410 ≤ c.toNat ∧ c.toNat ≤ 0x42F then Char.ofNat (c.toNat + 0x20)
  else if c.toNat = 0x401 then Char.ofNat 0x451
  else c

/-- Whether `needle` starts `hay`. -/
def leadsCh : List Char → List Char → Bool
  | [], _ => true
  | _ :: _, [] => false
  | n :: ns, h :: hs => (n = h) && leadsCh ns hs

/-- Containment of `needle` anywhere in `hay` (Python's `in` on strings,
the `%pat%` of `ilike`). -/
def containsCh (needle : List Char) : List Char → Bool
  | [] => leadsCh needle []
  | h :: hs => leadsCh needle (h :: hs) || containsCh needle hs

/-- Case-insensitive containment: SQL `ilike '%pat%'`. -/
def ilike_contains (stored pat : String) : Bool :=
  containsCh (pat.toList.map charLower) (stored.toList.map charLower)

/-- The merchant disjunction of the duplicate query:
`Transaction.merchant == merchant OR Transaction.merchant ilike
'%merchant%'` (both false on a NULL stored merchant). -/
def merchant_match (stored : Option String) (m : String) : Bool :=
  match stored with
  | none => false
  | some s => s = m || ilike_contains s m

/-- The SQL query of `DuplicateDetector.find_duplicates`: same user, same
amount, inside the ± `time_window_hours` window, not soft-deleted, and —
when a truthy merchant is supplied — matching that merchant. -/
def duplicate_query (store : List Transaction) (user_id : Nat)
    (amount : Money) (merchant : Option String) (transaction_date : Int)
    (time_window_hours : Int) : List Transaction :=
  let start_date := transaction_date - time_window_hours * 3600
  let end_date := transaction_date + time_window_hours * 3600
  let base := store.filter (fun t =>
    t.user_id = user_id ∧ t.amount = amount
      ∧ start_date ≤ t.transaction_date ∧ t.transaction_date ≤ end_date
      ∧ t.is_deleted = false)
  if truthyStr merchant then
    base.filter (fun t => merchant_match t.merchant (merchant.getD ""))
  else base

/-- `DuplicateDetector.find_duplicates`: classifies the query results into
exact duplicates (time difference ≤ 5 s) and near duplicates (≤ 60 s);
returns the exact ones when any exist, else the near ones — but only when
no merchant was supplied — else nothing. -/
def find_duplicates (store : List Transaction) (user_id : Nat)
    (amount : Money) (merchant : Option String) (transaction_date : Int)
    (time_window_hours : Int) : List Transaction :=
  let duplicates :=
    duplicate_query store user_id amount merchant transaction_date
      time_window_hours
  let exact_duplicates := duplicates.filter (fun t =>
    (t.transaction_date - transaction_date).natAbs ≤ 5)
  let near_duplicates := duplicates.filter (fun t =>
    ¬ (t.transaction_date - transaction_date).natAbs ≤ 5
      ∧ (t.transaction_date - transaction_date).natAbs ≤ 60)
  if exact_duplicates ≠ [] then exact_duplicates
  else if near_duplicates ≠ [] ∧ truthyStr merchant = false then
    near_duplicates
  else []

/-- The per-row conditions of the duplicate query that do not involve the
time window: right user, right amount, not soft-deleted, and compatible
with the supplied merchant. -/
def duplicate_candidate (user_id : Nat) (amount : Money)
    (merchant : Option String) (t : Transaction) : Prop :=
  t.user_id = user_id ∧ t.amount = amount ∧ t.is_deleted = false
    ∧ (truthyStr merchant = true →
        merchant_match t.merchant (merchant.getD "") = true)

instance (user_id : Nat) (amount : Money) (merchant : Option String)
    (t : Transaction) :
    Decidable (duplicate_candidate user_id amount merchant t) := by
  unfold duplicate_candidate
  infer_instance

/-- A time difference within the near window (≤ 60 s) is inside the ± 1–2 h
query window. -/
theorem window_of_natAbs_le (x td w : Int) (hw : 1 ≤ w)
    (h : (x - td).natAbs ≤ 60) :
    td - w * 3600 ≤ x ∧ x ≤ td + w * 3600 := by
  have habs : |x - td| ≤ 60 := by
    rw [Int.abs_eq_natAbs]
    exact_mod_cast h
  have h1 := (abs_le.mp habs).1
  have h2 := (abs_le.mp habs).2
  have hw' : (3600 : Int) ≤ w * 3600 := by
    have := mul_le_mul_of_nonneg_right hw (by norm_num : (0 : Int) ≤ 3600)
    simpa using this
  constructor <;> linarith

/-- Membership in the duplicate query result. -/
theorem mem_duplicate_query (store : List Transaction) (user_id : Nat)
    (amount : Money) (merchant : Option String) (transaction_date : Int)
    (time_window_hours : Int) (t : Transaction) :
    t ∈ duplicate_query store user_id amount merchant transaction_date
        time_window_hours ↔
      t ∈ store ∧ duplicate_candidate user_id amount merchant t
        ∧ transaction_date - time_window_hours * 3600 ≤ t.transaction_date
        ∧ t.transaction_date ≤ transaction_date + time_window_hours * 3600 := by
  unfold duplicate_query duplicate_candidate
  by_cases hm : truthyStr merchant <;>
    simp [hm, List.mem_filter] <;> tauto

/-- Whatever `find_duplicates` returns came out of the duplicate query. -/
theorem mem_of_mem_find_duplicates {store : List Transaction}
    {user_id : Nat} {amount : Money} {merchant : Option String}
    {transaction_date : Int} {time_window_hours : Int} {t : Transaction}
    (h : t ∈ find_duplicates store user_id amount merchant transaction_date
        time_window_hours) :
    t ∈ duplicate_query store user_id amount merchant transaction_date
      time_window_hours := by
  simp only [find_duplicates] at h
  split at h
  · exact List.mem_of_mem_filter h
  · split at h
    · exact List.mem_of_mem_filter h
    · cases h

/-- C5 (counterexample): the claim "find_duplicates returns exactly the
same-amount transactions whose timestamps lie within 5 seconds of the
candidate when any such exist" fails as stated: with merchant "Magnum"
supplied, a stored non-deleted transaction of the same user and amount only
3 seconds away — but recorded under merchant "Other" — is not returned; a
soft-deleted one with the very same merchant is not returned either. -/
theorem c5_find_duplicates_counterexample :
    (find_duplicates
        [{ user_id := 1, amount := 2500, currency := "KZT",
           amount_primary := 2500, exchange_rate := 1,
           merchant := some "Other", transaction_date := 0,
           is_deleted := false }] 1 2500 (some "Magnum") 3 1 = [])
    ∧ (find_duplicates
        [{ user_id := 1, amount := 2500, currency := "KZT",
           amount_primary := 2500, exchange_rate := 1,
           merchant := some "Magnum", transaction_date := 0,
           is_deleted := true }] 1 2500 (some "Magnum") 3 1 = [])
    ∧ ((0 : Int) - 3).natAbs ≤ 5 := by
  refine ⟨?_, ?_, by norm_num⟩ <;> rfl

/-- C5 (amended): for windows of 1–2 hours, `find_duplicates` returns
exactly the stored non-deleted same-user same-amount transactions that are
compatible with the supplied merchant and lie within 5 seconds of the
candidate, when any such exist; when none exist it returns the analogous
transactions within 60 seconds, but only when no merchant was supplied; in
every other case it returns nothing. -/
theorem c5_find_duplicates_classification (store : List Transaction)
    (user_id : Nat) (amount : Money) (merchant : Option String)
    (transaction_date : Int) (time_window_hours : Int)
    (hw1 : 1 ≤ time_window_hours) (_hw2 : time_window_hours ≤ 2)
    (t : Transaction) :
    t ∈ find_duplicates store user_id amount merchant transaction_date
        time_window_hours ↔
      (t ∈ store ∧ duplicate_candidate user_id amount merchant t
        ∧ (t.transaction_date - transaction_date).natAbs ≤ 5)
      ∨ ((∀ u ∈ store, ¬ (duplicate_candidate user_id amount merchant u
            ∧ (u.transaction_date - transaction_date).natAbs ≤ 5))
          ∧ truthyStr merchant = false
          ∧ t ∈ store ∧ duplicate_candidate user_id amount merchant t
          ∧ 5 < (t.transaction_date - transaction_date).natAbs
          ∧ (t.transaction_date - transaction_date).natAbs ≤ 60) := by
  clear _hw2
  have hq : ∀ u : Transaction,
      u ∈ duplicate_query store user_id amount merchant transaction_date
        time_window_hours
        ↔ u ∈ store ∧ duplicate_candidate user_id amount merchant u
          ∧ transaction_date - time_window_hours * 3600 ≤ u.transaction_date
          ∧ u.transaction_date
            ≤ transaction_date + time_window_hours * 3600 :=
    fun u => mem_duplicate_query store user_id amount merchant
      transaction_date time_window_hours u
  have hqnear : ∀ u : Transaction, u ∈ store →
      duplicate_candidate user_id amount merchant u →
      (u.transaction_date - transaction_date).natAbs ≤ 60 →
      u ∈ duplicate_query store user_id amount merchant transaction_date
        time_window_hours := by
    intro u hu hc hn
    have hwin := window_of_natAbs_le u.transaction_date transaction_date
      time_window_hours hw1 hn
    exact (hq u).mpr ⟨hu, hc, hwin.1, hwin.2⟩
  simp only [find_duplicates]
  split
  · rename_i hex
    rw [Ne, List.eq_nil_iff_forall_not_mem] at hex
    push_neg at hex
    obtain ⟨w, hw⟩ := hex
    rw [List.mem_filter] at hw
    have hwq := (hq w).mp hw.1
    have hw5 := of_decide_eq_true hw.2
    constructor
    · intro ht
      rw [List.mem_filter] at ht
      have htq := (hq t).mp ht.1
      exact Or.inl ⟨htq.1, htq.2.1, of_decide_eq_true ht.2⟩
    · rintro (⟨hts, htc, ht5⟩ | ⟨hnone, -, -, -, -, -⟩)
      · rw [List.mem_filter]
        exact ⟨hqnear t hts htc (ht5.trans (by norm_num)),
          decide_eq_true ht5⟩
      · exact absurd ⟨hwq.2.1, hw5⟩ (hnone w hwq.1)
  · rename_i hex
    rw [Ne, not_not] at hex
    have hexact : ∀ u ∈ store,
        ¬ (duplicate_candidate user_id amount merchant u
          ∧ (u.transaction_date - transaction_date).natAbs ≤ 5) := by
      intro u hu hcontra
      have : u ∈ (duplicate_query store user_id amount merchant
          transaction_date time_window_hours).filter (fun t =>
            (t.transaction_date - transaction_date).natAbs ≤ 5) := by
        rw [List.mem_filter]
        exact ⟨hqnear u hu hcontra.1 (hcontra.2.trans (by norm_num)),
          decide_eq_true hcontra.2⟩
      rw [hex] at this
      cases this
    split
    · rename_i hnear
      constructor
      · intro ht
        rw [List.mem_filter] at ht
        have htq := (hq t).mp ht.1
        have htw := of_decide_eq_true ht.2
        exact Or.inr ⟨hexact, hnear.2, htq.1, htq.2.1, by omega, htw.2⟩
      · rintro (⟨hts, htc, ht5⟩ | ⟨-, -, hts, htc, htgt, htle⟩)
        · exact absurd ⟨htc, ht5⟩ (hexact t hts)
        · rw [List.mem_filter]
          exact ⟨hqnear t hts htc htle, decide_eq_true ⟨by omega, htle⟩⟩
    · rename_i hnear
      rw [not_and_or] at hnear
      constructor
      · intro ht
        cases ht
      · rintro (⟨hts, htc, ht5⟩ | ⟨-, hm, hts, htc, htgt, htle⟩)
        · exact absurd ⟨htc, ht5⟩ (hexact t hts)
        · rcases hnear with hn | hm'
          · rw [Ne, not_not] at hn
            have : t ∈ (duplicate_query store user_id amount merchant
                transaction_date time_window_hours).filter (fun u =>
                  ¬ (u.transaction_date - transaction_date).natAbs ≤ 5
                    ∧ (u.transaction_date - transaction_date).natAbs ≤ 60) := by
              rw [List.mem_filter]
              exact ⟨hqnear t hts htc htle, decide_eq_true ⟨by omega, htle⟩⟩
            rw [hn] at this
            cases this
          · exact absurd hm hm'

/-- Closed instance of `c5_find_duplicates_classification`: an exact
duplicate 3 seconds away (amount 2500, merchant "Magnum" stored, query
merchant "Magnum", window 2 h) is returned. -/
theorem c5_find_duplicates_classification_witness :
    ({ user_id := 1, amount := 2500, currency := "KZT",
       amount_primary := 2500, exchange_rate := 1,
       merchant := some "Magnum", transaction_date := 0,
       is_deleted := false } : Transaction)
      ∈ find_duplicates
        [{ user_id := 1, amount := 2500, currency := "KZT",
           amount_primary := 2500, exchange_rate := 1,
           merchant := some "Magnum", transaction_date := 0,
           is_deleted := false }] 1 2500 (some "Magnum") 3 2 := by
  refine (c5_find_duplicates_classification _ 1 2500 (some "Magnum") 3 2
    (by norm_num) (by norm_num) _).mpr (Or.inl ⟨?_, ?_, ?_⟩)
  · exact List.mem_singleton.mpr rfl
  · exact ⟨rfl, rfl, rfl, fun _ => by decide⟩
  · decide

/-- C10: `find_duplicates` never reports a soft-deleted transaction: a
transaction with `is_deleted` set is absent from the result for every
store, amount, merchant, timestamp and window. -/
theorem c10_find_duplicates_skips_deleted (store : List Transaction)
    (user_id : Nat) (amount : Money) (merchant : Option String)
    (transaction_date : Int) (time_window_hours : Int) (t : Transaction)
    (hdel : t.is_deleted = true) :
    t ∉ find_duplicates store user_id amount merchant transaction_date
      time_window_hours := by
  intro hmem
  have hq := (mem_duplicate_query store user_id amount merchant
    transaction_date time_window_hours t).mp
    (mem_of_mem_find_duplicates hmem)
  have : t.is_deleted = false := hq.2.1.2.2.1
  rw [hdel] at this
  cases this

/-- Closed instance of `c10_find_duplicates_skips_deleted`: a soft-deleted
exact-amount same-time transaction is not reported, so re-submitting the
receipt after deletion warns about nothing. -/
theorem c10_find_duplicates_skips_deleted_witness :
    ({ user_id := 1, amount := 2500, currency := "KZT",
       amount_primary := 2500, exchange_rate := 1, merchant := none,
       transaction_date := 0, is_deleted := true } : Transaction)
      ∉ find_duplicates
        [{ user_id := 1, amount := 2500, currency := "KZT",
           amount_primary := 2500, exchange_rate := 1, merchant := none,
           transaction_date := 0, is_deleted := true }] 1 2500 none 0 2 :=
  c10_find_duplicates_skips_deleted _ 1 2500 none 0 2 _ rfl

/-! ## Manual expense parsing (`src/utils/text_parser.py`)

The regex patterns of `ExpenseParser` are embedded as explicit matchers
with the same greedy-plus-backtracking semantics on the inputs the bot
sees: `\d` is an ASCII digit, `\s` is whitespace, `.` matches any character
except a newline, `$` matches at the end of the string or just before one
trailing newline, `\w` covers ASCII word characters and Cyrillic letters,
and `IGNORECASE` lowercases through `charLower`. -/

/-- Python regex `\w` (ASCII word characters and the Cyrillic block). -/
def isWordChar (c : Char) : Bool :=
  c.isAlphanum || c = '_' || (0x400 ≤ c.toNat && c.toNat ≤ 0x4FF)

/-- Python `str.strip`. -/
def pyStrip (s : String) : String :=
  ⟨((s.toList.dropWhile Char.isWhitespace).reverse.dropWhile
      Char.isWhitespace).reverse⟩

/-- Python `str.replace(needle, '')`: removes every (non-overlapping,
leftmost-first) occurrence of `needle`.  Structural recursion on a fuel
bounded by the text length (each step consumes at least one character), so
the definition reduces definitionally on concrete inputs. -/
def removeAllSubFuel (needle : List Char) : Nat → List Char → List Char
  | 0, cs => cs
  | _ + 1, [] => []
  | fuel + 1, h :: hs =>
    if needle ≠ [] ∧ leadsCh needle (h :: hs) then
      removeAllSubFuel needle fuel (hs.drop (needle.length - 1))
    else h :: removeAllSubFuel needle fuel hs

/-- `str.replace(needle, '')` at full fuel. -/
def removeAllSub (needle cs : List Char) : List Char :=
  removeAllSubFuel needle cs.length cs

/-- `re.sub(r'\b' + word + r'\b', '', text, flags=re.IGNORECASE)` for a
lowercase `word` made of word characters: removes every occurrence of the
word delimited by word boundaries, case-insensitively.  `prevIsWord` says
whether the character just before the current position is a word
character. -/
def removeWordAllFuel (needle : List Char) :
    Nat → Bool → List Char → List Char
  | 0, _, cs => cs
  | _ + 1, _, [] => []
  | fuel + 1, prevIsWord, h :: hs =>
    if needle ≠ [] ∧ leadsCh needle ((h :: hs).map charLower)
        ∧ prevIsWord = false
        ∧ (match (h :: hs).drop needle.length with
          | [] => true
          | n :: _ => !isWordChar n) = true then
      removeWordAllFuel needle fuel true (hs.drop (needle.length - 1))
    else h :: removeWordAllFuel needle fuel (isWordChar h) hs

/-- The word-boundary removal at full fuel. -/
def removeWordAll (needle : List Char) (prevIsWord : Bool)
    (cs : List Char) : List Char :=
  removeWordAllFuel needle cs.length prevIsWord cs

/-- Digit run to a number. -/
def digitsToNat (ds : List Char) : Nat :=
  ds.foldl (fun a c => 10 * a + (c.toNat - 48)) 0

/-- `Decimal` of a matched amount string `\d+(\.\d{1,2})?`. -/
def parseDecimalCh (cs : List Char) : Money :=
  match cs.span (fun c => c.isDigit) with
  | (ds, []) => (digitsToNat ds : Money)
  | (ds, _ :: fs) =>
    (digitsToNat ds : Money) + (digitsToNat fs : Money) / 10 ^ fs.length

/-- Backtracking alternatives for the optional `(?:\.\d{1,2})?` group, in
greedy order: two fraction digits, one, none. -/
def fracCandidates (cs : List Char) : List (List Char × List Char) :=
  match cs with
  | '.' :: d1 :: d2 :: rest =>
    if d1.isDigit ∧ d2.isDigit then
      [('.' :: d1 :: [d2], rest), ('.' :: [d1], d2 :: rest), ([], cs)]
    else if d1.isDigit then [('.' :: [d1], d2 :: rest), ([], cs)]
    else [([], cs)]
  | '.' :: d1 :: [] =>
    if d1.isDigit then [('.' :: [d1], []), ([], cs)] else [([], cs)]
  | _ => [([], cs)]

/-- The final `(.+)$` / `(.*)$` group: `.` cannot cross a newline and `$`
also matches just before one trailing newline. -/
def tailGroup (allowEmpty : Bool) (cs : List Char) : Option (List Char) :=
  let body := match cs.getLast? with
    | some '\n' => cs.dropLast
    | _ => cs
  if body.contains '\n' then none
  else if body = [] ∧ allowEmpty = false then none
  else some body

/-- Strip a case-insensitive literal word from the front. -/
def dropPrefixCI (word : List Char) (cs : List Char) : Option (List Char) :=
  if leadsCh word (cs.map charLower) then some (cs.drop word.length)
  else none

/-- `^(\d+(?:\.\d{1,2})?)\s+(.+)$` ("500 coffee"). -/
def matchPattern1 (cs : List Char) : Option (List Char × List Char) :=
  let (digits, rest) := cs.span (fun c => c.isDigit)
  if digits = [] then none
  else
    (fracCandidates rest).findSome? (fun fr =>
      let (spaces, rest3) := fr.2.span (fun c => c.isWhitespace)
      if spaces = [] then none
      else (tailGroup false rest3).map (fun body => (digits ++ fr.1, body)))

/-- `^(\d+(?:\.\d{1,2})?)\s*(.*)$` ("500" or "500coffee"). -/
def matchPattern2 (cs : List Char) : Option (List Char × List Char) :=
  let (digits, rest) := cs.span (fun c => c.isDigit)
  if digits = [] then none
  else
    (fracCandidates rest).findSome? (fun fr =>
      let (_, rest3) := fr.2.span (fun c => c.isWhitespace)
      (tailGroup true rest3).map (fun body => (digits ++ fr.1, body)))

/-- `^потратил\s+(\d+(?:\.\d{1,2})?)\s+на\s+(.+)$` with `IGNORECASE`. -/
def matchPattern3 (cs : List Char) : Option (List Char × List Char) :=
  match dropPrefixCI "потратил".toList cs with
  | none => none
  | some r1 =>
    let (sp1, r2) := r1.span (fun c => c.isWhitespace)
    if sp1 = [] then none
    else
      let (digits, r3) := r2.span (fun c => c.isDigit)
      if digits = [] then none
      else
        (fracCandidates r3).findSome? (fun fr =>
          let (sp2, r5) := fr.2.span (fun c => c.isWhitespace)
          if sp2 = [] then none
          else
            match dropPrefixCI "на".toList r5 with
            | none => none
            | some r6 =>
              let (sp3, r7) := r6.span (fun c => c.isWhitespace)
              if sp3 = [] then none
              else (tailGroup false r7).map
                (fun body => (digits ++ fr.1, body)))

/-- `^жұмсадым\s+(\d+(?:\.\d{1,2})?)\s+(.+)$` with `IGNORECASE`. -/
def matchPattern4 (cs : List Char) : Option (List Char × List Char) :=
  match dropPrefixCI "жұмсадым".toList cs with
  | none => none
  | some r1 =>
    let (sp1, r2) := r1.span (fun c => c.isWhitespace)
    if sp1 = [] then none
    else
      let (digits, r3) := r2.span (fun c => c.isDigit)
      if digits = [] then none
      else
        (fracCandidates r3).findSome? (fun fr =>
          let (sp2, r5) := fr.2.span (fun c => c.isWhitespace)
          if sp2 = [] then none
          else (tailGroup false r5).map (fun body => (digits ++ fr.1, body)))

/-- Python `datetime.date` (year, month, day). -/
structure PyDate where
  year : Nat
  month : Nat
  day : Nat
deriving DecidableEq, Repr

/-- Backtracking alternatives for a `(\d{1,2})` group, in greedy order. -/
def twoDigitCands (cs : List Char) : List (List Char × List Char) :=
  match cs with
  | d1 :: d2 :: rest =>
    if d1.isDigit ∧ d2.isDigit then
      [([d1, d2], rest), ([d1], d2 :: rest)]
    else if d1.isDigit then [([d1], d2 :: rest)]
    else []
  | [d1] => if d1.isDigit then [([d1], [])] else []
  | [] => []

/-- Match `(\d{1,2})<sep>(\d{1,2})` — and, with `withYear`,
`<sep>(\d{4})` — at the head of `cs`; yields the matched text, the day,
the month and the optional year. -/
def matchDMYAt (sep : Char) (withYear : Bool) (cs : List Char) :
    Option (List Char × Nat × Nat × Option Nat) :=
  (twoDigitCands cs).findSome? (fun g1 =>
    match g1.2 with
    | [] => none
    | c :: r2 =>
      if c = sep then
        (twoDigitCands r2).findSome? (fun g2 =>
          if withYear then
            match g2.2 with
            | c2 :: y1 :: y2 :: y3 :: y4 :: _ =>
              if c2 = sep ∧ y1.isDigit ∧ y2.isDigit ∧ y3.isDigit
                  ∧ y4.isDigit then
                some (g1.1 ++ [c] ++ g2.1 ++ [c2, y1, y2, y3, y4],
                      digitsToNat g1.1, digitsToNat g2.1,
                      some (digitsToNat [y1, y2, y3, y4]))
              else none
            | _ => none
          else
            some (g1.1 ++ [c] ++ g2.1,
                  digitsToNat g1.1, digitsToNat g2.1, none))
      else none)

/-- `re.search`: leftmost position where the date pattern matches. -/
def searchDate (sep : Char) (withYear : Bool) :
    List Char → Option (List Char × Nat × Nat × Option Nat)
  | [] => none
  | c :: cs =>
    match matchDMYAt sep withYear (c :: cs) with
    | some r => some r
    | none => searchDate sep withYear cs

/-- Gregorian leap year (`datetime`'s calendar). -/
def isLeapYear (y : Nat) : Bool :=
  (y % 4 = 0 ∧ y % 100 ≠ 0) ∨ y % 400 = 0

/-- Days in a month of the proleptic Gregorian calendar. -/
def daysInMonth (y m : Nat) : Nat :=
  if m = 2 then (if isLeapYear y then 29 else 28)
  else if m = 4 ∨ m = 6 ∨ m = 9 ∨ m = 11 then 30 else 31

/-- `datetime.strptime` acceptance of a day/month/year combination. -/
def validDate (y m d : Nat) : Bool :=
  1 ≤ y ∧ 1 ≤ m ∧ m ≤ 12 ∧ 1 ≤ d ∧ d ≤ daysInMonth y m

/-- The numeric-format loop of `_extract_date`: the four `(sep, has-year)`
patterns in order; a match whose `strptime` fails (`ValueError`) falls
through to the next pattern; a parsed date is removed from the text
(`str.replace` removes every occurrence) and the remainder stripped. -/
def datePatternsLoop (today : PyDate) :
    List (Char × Bool) → List Char → Option (PyDate × String)
  | [], _ => none
  | p :: rest, cs =>
    match searchDate p.1 p.2 cs with
    | some r =>
      let y := r.2.2.2.getD today.year
      if validDate y r.2.2.1 r.2.1 then
        some (⟨y, r.2.2.1, r.2.1⟩, pyStrip ⟨removeAllSub r.1 cs⟩)
      else datePatternsLoop today rest cs
    | none => datePatternsLoop today rest cs

/-- `ExpenseParser._extract_date`: "today" keywords return today's date,
the "yesterday" branch evaluates `date.today() - timedelta(days=1)` —
but `timedelta` is never imported in `text_parser.py`, so it raises
`NameError` — and otherwise the four numeric date formats are searched;
matched tokens are removed from the returned description. -/
def _extract_date (today : PyDate) (text : String) :
    Except PyError (Option PyDate × String) :=
  if text = "" then .ok (none, text)
  else
    let tl := text.toList.map charLower
    match ["сегодня", "бүгін"].find? (fun k => containsCh k.toList tl) with
    | some k =>
      .ok (some today, pyStrip ⟨removeWordAll k.toList false text.toList⟩)
    | none =>
      match ["вчера", "кеше"].find? (fun k => containsCh k.toList tl) with
      | some _ => .error (.nameError "timedelta")
      | none =>
        match datePatternsLoop today
            [('.', true), ('.', false), ('/', true), ('/', false)]
            text.toList with
        | some r => .ok (some r.1, r.2)
        | none => .ok (none, text)

/-- `ExpenseParser.CURRENCY_SYMBOLS` in dict insertion order. -/
def CURRENCY_SYMBOLS : List (String × String) :=
  [("₸", "KZT"), ("₽", "RUB"), ("$", "USD"), ("€", "EUR"),
   ("¥", "CNY"), ("₩", "KRW"), ("₺", "TRY"), ("RM", "MYR")]

/-- `ExpenseParser.CURRENCY_WORDS` in dict insertion order. -/
def CURRENCY_WORDS : List (String × String) :=
  [("тенге", "KZT"), ("теңге", "KZT"), ("рубль", "RUB"), ("рублей", "RUB"),
   ("руб", "RUB"), ("доллар", "USD"), ("долларов", "USD"), ("евро", "EUR"),
   ("юань", "CNY"), ("юаней", "CNY"), ("вон", "KRW"), ("лира", "TRY"),
   ("лир", "TRY"), ("ринггит", "MYR"), ("myr", "MYR")]

/-- `ExpenseParser._extract_currency`: first currency symbol contained in
the text wins (all its occurrences removed), else the first currency word
contained in the lowercased text (removed at word boundaries,
case-insensitively), else the default `KZT` with the text unchanged. -/
def _extract_currency (text : String) : String × String :=
  match CURRENCY_SYMBOLS.find? (fun p =>
      containsCh p.1.toList text.toList) with
  | some p => (p.2, pyStrip ⟨removeAllSub p.1.toList text.toList⟩)
  | none =>
    match CURRENCY_WORDS.find? (fun p =>
        containsCh p.1.toList (text.toList.map charLower)) with
    | some p => (p.2, pyStrip ⟨removeWordAll p.1.toList false text.toList⟩)
    | none => ("KZT", text)

/-- The parse result of `ExpenseParser.parse_expense`. -/
structure ParsedExpense where
  amount : Money
  currency : String
  description : Option String
  date : Option PyDate
deriving DecidableEq, Repr

/-- The pattern loop of `parse_expense`: first matching pattern whose
amount is positive wins; its description (stripped) goes through
`_extract_date`, whose `NameError` propagates (the `except` clause only
catches `InvalidOperation` and `ValueError`); an empty final description
becomes `None`. -/
def tryPatterns (today : PyDate) (currency : String) :
    List (List Char → Option (List Char × List Char)) → List Char →
    Except PyError (Option ParsedExpense)
  | [], _ => .ok none
  | pat :: rest, cs =>
    match pat cs with
    | none => tryPatterns today currency rest cs
    | some m =>
      let amount := parseDecimalCh m.1
      if amount ≤ 0 then tryPatterns today currency rest cs
      else
        match _extract_date today (pyStrip ⟨m.2⟩) with
        | .error e => .error e
        | .ok r =>
          .ok (some { amount := amount, currency := currency,
                      description := if r.2 = "" then none else some r.2,
                      date := r.1 })

/-- `ExpenseParser.parse_expense`: empty text parses to nothing; otherwise
the text is stripped, the currency extracted, and the four
`AMOUNT_PATTERNS` tried in order. -/
def parse_expense (today : PyDate) (text : String) :
    Except PyError (Option ParsedExpense) :=
  if text = "" then .ok none
  else
    let text1 := pyStrip text
    let ec := _extract_currency text1
    tryPatterns today ec.1
      [matchPattern1, matchPattern2, matchPattern3, matchPattern4]
      ec.2.toList

/-- C6 (counterexample): "20 usd такси" does not parse to currency USD and
description "такси": `CURRENCY_WORDS` has no entry for "usd" (only the
symbol `$` and the Russian words map to USD), so the parser keeps the
default KZT and leaves "usd" inside the description. -/
theorem c6_parse_usd_counterexample :
    parse_expense ⟨2026, 10, 12⟩ "20 usd такси"
      = .ok (some { amount := 20, currency := "KZT",
                    description := some "usd такси", date := none })
    ∧ ("KZT" ≠ "USD"
      ∧ (some "usd такси" : Option String) ≠ some "такси") :=
  ⟨by rfl, by decide⟩

/-- C6 (amended): "500 кофе" parses to amount 500, default currency KZT,
description "кофе"; "20 usd такси" parses to amount 20, currency KZT (the
token "usd" is not a recognised currency word and stays in the
description); text with no leading number ("просто текст") yields no parse
result. -/
theorem c6_parse_expense_examples :
    parse_expense ⟨2026, 10, 12⟩ "500 кофе"
      = .ok (some { amount := 500, currency := "KZT",
                    description := some "кофе", date := none })
    ∧ parse_expense ⟨2026, 10, 12⟩ "20 usd такси"
      = .ok (some { amount := 20, currency := "KZT",
                    description := some "usd такси", date := none })
    ∧ parse_expense ⟨2026, 10, 12⟩ "просто текст" = .ok none :=
  ⟨by rfl, by rfl, by rfl⟩

/-- C7: the "yesterday" branch of `_extract_date` evaluates
`date.today() - timedelta(days=1)` although `text_parser.py` never imports
`timedelta`, so a valid amount followed by a description containing
"вчера" or "кеше" raises `NameError` instead of returning yesterday's
date; the "today" keywords work as specified. -/
theorem c7_yesterday_keyword_raises :
    parse_expense ⟨2026, 10, 12⟩ "500 кофе вчера"
      = .error (.nameError "timedelta")
    ∧ parse_expense ⟨2026, 10, 12⟩ "500 кофе кеше"
      = .error (.nameError "timedelta")
    ∧ parse_expense ⟨2026, 10, 12⟩ "500 кофе сегодня"
      = .ok (some { amount := 500, currency := "KZT",
                    description := some "кофе",
                    date := some ⟨2026, 10, 12⟩ })
    ∧ parse_expense ⟨2026, 10, 12⟩ "500 кофе бүгін"
      = .ok (some { amount := 500, currency := "KZT",
                    description := some "кофе",
                    date := some ⟨2026, 10, 12⟩ }) :=
  ⟨by rfl, by rfl, by rfl, by rfl⟩

/-! ## Localization (`src/utils/i18n.py`) -/

/-- A loaded YAML translation tree: string leaves and nested mappings (the
locale files' leaves are strings). -/
inductive YamlVal where
  | str : String → YamlVal
  | dict : List (String × YamlVal) → YamlVal
deriving Repr

/-- `dict.get` on a YAML mapping. -/
def yamlGet (d : List (String × YamlVal)) (k : String) : Option YamlVal :=
  (d.find? (fun p => p.1 = k)).map (·.2)

/-- The key-walking loop of `I18n.get`: `value = value.get(k)` while the
value is a dict, `None` as soon as it is not (or a lookup misses). -/
def walkKeys : Option YamlVal → List String → Option YamlVal
  | v, [] => v
  | some (.dict d), k :: ks => walkKeys (yamlGet d k) ks
  | _, _ :: _ => none

/-- Python `str.split('.')` (structural, so it reduces on concrete keys). -/
def pySplit (sep : Char) : List Char → List (List Char)
  | [] => [[]]
  | c :: rest =>
    if c = sep then [] :: pySplit sep rest
    else
      match pySplit sep rest with
      | r :: rs => (c :: r) :: rs
      | [] => [[c]]

/-- Resolution of a dot-separated key in one locale:
`self.translations.get(locale, {})` followed by the key walk over
`key.split('.')`. -/
def resolveKey (translations : List (String × YamlVal)) (locale key : String) :
    Option YamlVal :=
  walkKeys (some ((yamlGet translations locale).getD (.dict [])))
    ((pySplit '.' key.toList).map (fun l => (⟨l⟩ : String)))

/-- `I18n.get` (with no format kwargs): unknown locales normalise to `ru`;
a missed lookup falls back to the Russian tree (the recursive
`self.get(key, 'ru')`, unfolded once — it cannot recurse further); a key
absent there too yields the bracketed placeholder. -/
def I18n_get (translations : List (String × YamlVal)) (key locale : String) :
    YamlVal :=
  let loc := if (yamlGet translations locale).isNone then "ru" else locale
  match resolveKey translations loc key with
  | some v => v
  | none =>
    if loc ≠ "ru" then
      match resolveKey translations "ru" key with
      | some v => v
      | none => .str ("[" ++ key ++ "]")
    else .str ("[" ++ key ++ "]")

/-- C8: requesting a key under locale `kz` returns the Russian text
whenever the key resolves in the Russian tree but not in the Kazakh one,
and returns the bracketed key when it resolves in neither — never
raising. -/
theorem c8_i18n_russian_fallback (translations : List (String × YamlVal))
    (key : String) :
    (∀ s, resolveKey translations "ru" key = some (.str s) →
      resolveKey translations "kz" key = none →
      I18n_get translations key "kz" = .str s)
    ∧ (resolveKey translations "ru" key = none →
      resolveKey translations "kz" key = none →
      I18n_get translations key "kz"
        = .str ("[" ++ key ++ "]")) := by
  constructor
  · intro s hru hkz
    by_cases h : (yamlGet translations "kz").isNone <;>
      simp [I18n_get, h, hru, hkz]
  · intro hru hkz
    by_cases h : (yamlGet translations "kz").isNone <;>
      simp [I18n_get, h, hru, hkz]

/-- Closed instance of `c8_i18n_russian_fallback`: a key only present in
the Russian tree served under `kz`, and a missing key bracketed. -/
theorem c8_i18n_russian_fallback_witness :
    I18n_get
      [("ru", .dict [("errors", .dict [("unknown", .str "Ошибка")])]),
       ("kz", .dict [])] "errors.unknown" "kz" = .str "Ошибка"
    ∧ I18n_get
      [("ru", .dict [("errors", .dict [("unknown", .str "Ошибка")])]),
       ("kz", .dict [])] "errors.misc" "kz" = .str "[errors.misc]" := by
  constructor
  · exact (c8_i18n_russian_fallback
      [("ru", .dict [("errors", .dict [("unknown", .str "Ошибка")])]),
       ("kz", .dict [])] "errors.unknown").1 "Ошибка" rfl rfl
  · exact (c8_i18n_russian_fallback
      [("ru", .dict [("errors", .dict [("unknown", .str "Ошибка")])]),
       ("kz", .dict [])] "errors.misc").2 rfl rfl

/-! ## Rate limiting (`src/bot/middlewares/throttling.py`) -/

/-- Result of one pass through `ThrottlingMiddleware.__call__`:
either the wrapped handler's value, or the too-many-requests notice with
the handler never invoked. -/
inductive ThrottleOutcome (α : Type) where
  | handled : α → ThrottleOutcome α
  | throttledNotice : ThrottleOutcome α
deriving DecidableEq, Repr

/-- Per-user request-time cache (`TTLCache` keyed by user id; the explicit
60-second filter below makes the TTL expiry behaviourally transparent for
monotone time). -/
def cacheGet (cache : List (Nat × List Int)) (user_id : Nat) : List Int :=
  ((cache.find? (fun p => p.1 = user_id)).map (·.2)).getD []

/-- Store a user's request list. -/
def cacheSet (cache : List (Nat × List Int)) (user_id : Nat)
    (times : List Int) : List (Nat × List Int) :=
  (user_id, times) :: cache.filter (fun p => p.1 ≠ user_id)

/-- `ThrottlingMiddleware.__call__`: keeps only the accepted request times
newer than `now - 60`; at or above the limit it answers with the notice,
records nothing and never calls the handler; below it the current time is
appended and the handler runs. -/
def throttle_call {α : Type} (rate_limit : Nat)
    (handler : Nat → Int → α) (cache : List (Nat × List Int))
    (user_id : Nat) (now : Int) :
    ThrottleOutcome α × List (Nat × List Int) :=
  let user_requests := cacheGet cache user_id
  let recent := user_requests.filter (fun t => now - 60 < t)
  if rate_limit ≤ recent.length then (.throttledNotice, cache)
  else
    (.handled (handler user_id now),
     cacheSet cache user_id (recent ++ [now]))

/-- C9: once a user's accepted requests inside the trailing 60-second
window have reached the per-minute limit, every further request in that
window gets the throttling notice, the handler is not invoked and the
cache is untouched; below the limit the handler runs and the request is
recorded; once every recorded request has aged out of the window, requests
are accepted again (for any positive limit). -/
theorem c9_throttling_window {α : Type} (rate_limit : Nat)
    (handler : Nat → Int → α) (cache : List (Nat × List Int))
    (user_id : Nat) (now : Int) :
    (rate_limit ≤
        ((cacheGet cache user_id).filter (fun t => now - 60 < t)).length →
      throttle_call rate_limit handler cache user_id now
        = (.throttledNotice, cache))
    ∧ (((cacheGet cache user_id).filter (fun t => now - 60 < t)).length
          < rate_limit →
      throttle_call rate_limit handler cache user_id now
        = (.handled (handler user_id now),
           cacheSet cache user_id
             ((cacheGet cache user_id).filter (fun t => now - 60 < t)
               ++ [now])))
    ∧ ((∀ t ∈ cacheGet cache user_id, t ≤ now - 60) → 1 ≤ rate_limit →
      (throttle_call rate_limit handler cache user_id now).1
        = .handled (handler user_id now)) := by
  refine ⟨?_, ?_, ?_⟩
  · intro h
    simp [throttle_call, h]
  · intro h
    simp [throttle_call, Nat.not_le.mpr h]
  · intro hold hpos
    have hempty : (cacheGet cache user_id).filter (fun t => now - 60 < t)
        = [] := by
      rw [List.filter_eq_nil_iff]
      intro t ht
      simpa using not_lt.mpr (hold t ht)
    simp [throttle_call, hempty, Nat.not_le.mpr hpos]

/-- Closed instance of `c9_throttling_window`: with limit 2 and two
accepted requests 10 and 20 seconds ago, a request now is throttled with
the cache untouched; 70 seconds later the window has rolled over and the
handler runs again. -/
theorem c9_throttling_window_witness :
    (throttle_call 2 (fun u t => (u, t)) [(1, [80, 90])] 1 100
        = (.throttledNotice, [(1, [80, 90])]))
    ∧ (throttle_call 2 (fun u t => (u, t)) [(1, [80, 90])] 1 170).1
      = .handled (1, 170) := by
  constructor
  · exact (c9_throttling_window 2 (fun u t => (u, t)) [(1, [80, 90])] 1
      100).1 (by decide)
  · exact (c9_throttling_window 2 (fun u t => (u, t)) [(1, [80, 90])] 1
      170).2.2 (by decide) (by decide)

/-- A state pair produced by `convert_or_original` always satisfies the
product identity under the creation-site defaults. -/
theorem convert_or_original_product (amount : Money)
    (from_currency to_currency : String) (live_rate : Option Money) :
    (convert_or_original amount from_currency to_currency live_rate).1.getD
        amount
      = amount * ((convert_or_original amount from_currency to_currency
          live_rate).2.getD 1) := by
  unfold convert_or_original convert_amount
  by_cases hft : from_currency = to_currency
  · simp [hft]
  · rcases live_rate with _ | r
    · simp [hft]
    · rcases eq_or_ne r 0 with hr | hr
      · simp [hft, hr]
      · rcases eq_or_ne (amount * r) 0 with ha | ha <;> simp [hft, hr, ha]

/-- C1: every transaction created via `TransactionService.create_transaction`
— through the manual-expense flow, the automatic text-expense flow, the
photo-receipt pipeline (including the currency-selection step and the
conversion fallbacks), the document-receipt pipeline, the manual-amount
site and the maintenance scripts, and the clarification paths that reach a
creation site with no prepared state — satisfies
`amount_primary = amount × exchange_rate` (exact equality, hence equality
to 2 decimal places), and when the entered currency equals the user's
primary currency the stored `exchange_rate` is exactly `1.0000`. -/
theorem c1_amount_primary_invariant (user_id : Nat) (amount : Money)
    (currency primary_currency : String) (conversion_enabled : Bool)
    (live_rate rate_to_kzt : Option Money) (choice : CurrencyChoice)
    (d : Int) :
    primary_amount_consistent primary_currency
      (process_expense_flow user_id amount currency primary_currency
        conversion_enabled live_rate d)
    ∧ primary_amount_consistent primary_currency
      (process_text_expense_flow user_id amount currency primary_currency
        live_rate d)
    ∧ primary_amount_consistent primary_currency
      (process_photo_receipt_flow user_id amount currency primary_currency
        conversion_enabled live_rate rate_to_kzt choice d)
    ∧ primary_amount_consistent primary_currency
      (process_document_flow user_id amount currency primary_currency
        conversion_enabled live_rate d)
    ∧ primary_amount_consistent primary_currency
      (process_photo_manual_flow user_id amount currency d)
    ∧ primary_amount_consistent primary_currency
      (create_from_state user_id amount currency d (none, none)) := by
  have hco := convert_or_original_product amount currency primary_currency
    live_rate
  have hco_kzt := convert_or_original_product amount currency "KZT"
    rate_to_kzt
  refine ⟨?_, ?_, ?_, ?_, ?_, ?_⟩
  · unfold primary_amount_consistent process_expense_flow convert_amount
      create_transaction
    by_cases hc : currency = primary_currency <;>
      cases conversion_enabled <;>
        rcases live_rate with _ | r <;>
          simp [hc] <;>
            rcases eq_or_ne r 0 with hr | hr <;>
              rcases eq_or_ne (amount * r) 0 with ha | ha <;>
                simp [hr, ha]
  · unfold primary_amount_consistent process_text_expense_flow
      convert_amount create_transaction
    by_cases hc : currency = primary_currency <;>
      rcases live_rate with _ | r <;>
        simp [hc] <;>
          rcases eq_or_ne r 0 with hr | hr <;> simp [hr]
  · unfold primary_amount_consistent process_photo_receipt_flow
      prepare_photo_ocr prepare_currency_choice create_from_state
      create_transaction
    by_cases hc : currency = primary_currency
    · simp [hc]
    · cases conversion_enabled
      · cases choice
        · by_cases hk : currency = "KZT"
          · have hkp : ¬ ("KZT" = primary_currency) := hk ▸ hc
            simp [hc, hk, hkp]
          · simp [hc, hk, hco_kzt]
        · simp [hc]
        · simp [hc, hco]
      · simp [hc, hco]
  · unfold primary_amount_consistent process_document_flow
      prepare_document_ocr create_from_state create_transaction
    by_cases hc : currency = primary_currency
    · simp [hc]
    · cases conversion_enabled <;> simp [hc, hco]
  · unfold primary_amount_consistent process_photo_manual_flow
      create_transaction
    simp
  · unfold primary_amount_consistent create_from_state create_transaction
    simp

/-- Closed instance of `c1_amount_primary_invariant` at a matching-currency
input, across all six creation flows. -/
theorem c1_amount_primary_invariant_witness :
    ((process_expense_flow 1 500 "KZT" "KZT" true (some 480) 0).exchange_rate
      = 1
    ∧ (process_expense_flow 1 500 "KZT" "KZT" true
        (some 480) 0).amount_primary
      = (process_expense_flow 1 500 "KZT" "KZT" true (some 480) 0).amount
        * (process_expense_flow 1 500 "KZT" "KZT" true
            (some 480) 0).exchange_rate)
    ∧ (process_photo_receipt_flow 1 500 "KZT" "KZT" true (some 480)
        (some 480) .tenge 0).exchange_rate = 1
    ∧ (process_document_flow 1 500 "KZT" "KZT" true
        (some 480) 0).exchange_rate = 1 := by
  have h := c1_amount_primary_invariant 1 500 "KZT" "KZT" true (some 480)
    (some 480) .tenge 0
  exact ⟨⟨(h.1.2 rfl), h.1.1⟩, h.2.2.1.2 rfl, h.2.2.2.1.2 rfl⟩

end ExpanseBot
